import Mathlib

/-!
Shallow embedding of src/projects/hand-teleop-system/render_backend.py.

Modelling choices:
- Python floats are modelled as exact rationals (all literals in the source
  are short decimals).
- Datetimes are modelled as natural numbers passed in as a parameter `now`.
- Websocket handles carry no interpreted structure; they are modelled as
  natural numbers.
- Whether a given send to a handle succeeds is modelled by a predicate
  `ok : Conn -> Bool` supplied to the broadcast (the source wraps each send
  in try/except).
- The JSON dict argument of process_hand_tracking is modelled by `FrameData`:
  either a dict whose image field is present or absent (`obj`), or a
  non-dict value (`nonDict`) on which the `.get` attribute access raises,
  which the except clause of the source converts into a raised error.
- Fallible operations return `Except String`.
-/

-- ===== DATA MODELS (render_backend.py lines 45-68) =====

structure HandPosition where
  x : Rat
  y : Rat
  z : Rat
deriving DecidableEq

structure FingertipData where
  thumb : Option HandPosition := none
  index_pip : Option HandPosition := none
  index_tip : Option HandPosition := none
deriving DecidableEq

structure PoseAngles where
  roll : Rat
  pitch : Rat
  yaw : Rat
deriving DecidableEq

structure EndEffectorPose where
  position : HandPosition
  orientation : PoseAngles
deriving DecidableEq

structure RobotControl where
  joint_angles : List Rat
  end_effector_pose : EndEffectorPose
  gripper_state : String
  in_workspace : Bool
  confidence : Rat
deriving DecidableEq

structure RobotConfig where
  robot_type : String := "SO-101"
  end_effector : String := "gripper"
  workspace_bounds : List (String × List Rat) :=
    [("x", [-0.3, 0.3]), ("y", [-0.2, 0.4]), ("z", [0.1, 0.5])]
deriving DecidableEq

structure TrackingSession where
  session_id : String
  robot_config : RobotConfig
  active : Bool := false
  start_time : Option Nat := none
deriving DecidableEq

/-- The dict returned by process_hand_tracking (lines 166-174). -/
structure TrackingResult where
  success : Bool
  timestamp : Nat
  hand_detected : Bool
  fingertips : FingertipData
  robot_control : RobotControl
  robot_type : String
  processing_time_ms : Rat
deriving DecidableEq

/-- One entry of the robot catalog returned by get_available_robots. -/
structure RobotInfo where
  id : String
  name : String
  dof : Nat
  description : String
deriving DecidableEq

/-- The response dict of set_robot_config (lines 123-127). -/
structure ConfigResponse where
  success : Bool
  robot_config : RobotConfig
  message : String
deriving DecidableEq

-- ===== GLOBAL STATE (lines 70-74) =====

abbrev Conn := Nat

structure ServerState where
  current_robot_config : RobotConfig
  websocket_connections : List Conn
deriving DecidableEq

-- ===== ROBOT CATALOG (get_available_robots, lines 90-114) =====

def available_robots : List RobotInfo :=
  [ { id := "SO-101", name := "SO-101 Humanoid Arm", dof := 6,
      description := "6-DOF humanoid robot arm with gripper" },
    { id := "SO-100", name := "SO-100 Industrial Arm", dof := 6,
      description := "Industrial 6-DOF robot arm" },
    { id := "KOCH", name := "Koch Robotic Arm", dof := 7,
      description := "7-DOF research robot arm" } ]

/-- Degree-of-freedom count the catalog lists for a robot id. -/
def catalogDof (robot_type : String) : Option Nat :=
  (available_robots.find? (fun r => r.id == robot_type)).map (fun r => r.dof)

-- ===== FRAME PAYLOADS =====

/-- The JSON value handed to process_hand_tracking: either a dict with an
optional image field, or a non-dict value on which the attribute access
data.get raises. -/
inductive FrameData where
  | obj (image : Option String)
  | nonDict
deriving DecidableEq

-- ===== process_hand_tracking (lines 129-178) =====

/-- The response dict built when hand_detected is true (lines 136-152 and
166-174): fixed fingertip and control literals, stamped with the robot type
of the current configuration. -/
def detectedResult (now : Nat) (current_robot_config : RobotConfig) :
    TrackingResult :=
  { success := true
    timestamp := now
    hand_detected := true
    fingertips :=
      { thumb := some { x := 0.45, y := 0.35, z := 0.2 }
        index_pip := some { x := 0.52, y := 0.28, z := 0.15 }
        index_tip := some { x := 0.58, y := 0.22, z := 0.1 } }
    robot_control :=
      { joint_angles := [45.2, -30.5, 60.1, 15.0, -45.0, 90.0]
        end_effector_pose :=
          { position := { x := 0.25, y := 0.15, z := 0.30 }
            orientation := { roll := 0, pitch := 45, yaw := -30 } }
        gripper_state := "open"
        in_workspace := true
        confidence := 0.94 }
    robot_type := current_robot_config.robot_type
    processing_time_ms := 16.7 }

/-- The response dict built when hand_detected is false (lines 153-174):
default fingertips and zeroed control literals. -/
def noHandResult (now : Nat) (current_robot_config : RobotConfig) :
    TrackingResult :=
  { success := true
    timestamp := now
    hand_detected := false
    fingertips := {}
    robot_control :=
      { joint_angles := [0, 0, 0, 0, 0, 0]
        end_effector_pose :=
          { position := { x := 0, y := 0, z := 0 }
            orientation := { roll := 0, pitch := 0, yaw := 0 } }
        gripper_state := "open"
        in_workspace := false
        confidence := 0.0 }
    robot_type := current_robot_config.robot_type
    processing_time_ms := 16.7 }

/-- Translation of process_hand_tracking.  The source computes hand_detected
= (data.get("image", "") != "") and returns the corresponding response dict.
A non-dict payload makes the body raise; the except clause re-raises it as
an HTTP 500 error, modelled as Except.error. -/
def process_hand_tracking (now : Nat) (current_robot_config : RobotConfig)
    (data : FrameData) : Except String TrackingResult :=
  match data with
  | FrameData.nonDict => Except.error "Tracking error"
  | FrameData.obj image =>
    if image.getD "" ≠ "" then
      Except.ok (detectedResult now current_robot_config)
    else
      Except.ok (noHandResult now current_robot_config)

-- ===== BROADCAST (broadcast_config_update, lines 230-248) =====

/-- The for-loop of broadcast_config_update: each connection is tried
independently; a successful send is both a delivery and an entry of the
rebuilt active list, a failing send is skipped (try/except pass).  Returns
(delivered, active_connections), both in original order. -/
def broadcastLoop (ok : Conn → Bool) : List Conn → List Conn × List Conn
  | [] => ([], [])
  | c :: rest =>
    let r := broadcastLoop ok rest
    if ok c then (c :: r.1, c :: r.2) else r

/-- broadcast_config_update: early return when no connection is registered
(no message is constructed), otherwise runs the delivery loop and replaces
websocket_connections wholesale with the list of successful handles.
Returns the new state and the list of handles the message reached. -/
def broadcast_config_update (ok : Conn → Bool) (st : ServerState) :
    ServerState × List Conn :=
  if st.websocket_connections.isEmpty then (st, [])
  else
    let r := broadcastLoop ok st.websocket_connections
    ({ st with websocket_connections := r.2 }, r.1)

-- ===== set_robot_config (lines 116-127) =====

/-- set_robot_config: stores the given configuration unconditionally (the
only checks are the pydantic field types already captured by RobotConfig),
then broadcasts, then returns a success response echoing the new value. -/
def set_robot_config (ok : Conn → Bool) (st : ServerState) (config : RobotConfig) :
    ServerState × List Conn × ConfigResponse :=
  let st1 := { st with current_robot_config := config }
  let r := broadcast_config_update ok st1
  (r.1, r.2,
    { success := true
      robot_config := config
      message := "Robot configured to " ++ config.robot_type })

-- ===== CONNECTION REGISTRATION (line 184) =====

/-- websocket_connections.append(websocket): a plain list append. -/
def registerConn (st : ServerState) (websocket : Conn) : ServerState :=
  { st with websocket_connections := st.websocket_connections ++ [websocket] }

-- ===== WEBSOCKET RECEIVE LOOP (websocket_tracking, lines 195-228) =====

inductive WsMsg where
  | ping
  | track (data : FrameData)
  | image (data : String)
  | other
deriving DecidableEq

inductive WsReply where
  | pong
  | tracking_result (result : TrackingResult)
deriving DecidableEq

/-- Outcome of handling one inbound message: a reply sent back on the same
connection, silence with the connection still open, or termination of the
receive loop (the finally block then removes the handle), i.e. the
connection transitions to CLOSED. -/
inductive StepOutcome where
  | reply (r : WsReply)
  | silent
  | closed
deriving DecidableEq

/-- One iteration of the while-loop of websocket_tracking.  A ping is
answered with pong; a track message forwards its data field to
process_hand_tracking; an image message wraps the raw data string into a
dict with an image field first.  If process_hand_tracking raises, the
exception leaves the while-loop, is logged by the outer except clause and
the finally block unregisters the handle: outcome closed.  Any other
message kind is ignored and the loop continues. -/
def websocketStep (now : Nat) (cfg : RobotConfig) (msg : WsMsg) : StepOutcome :=
  match msg with
  | WsMsg.ping => StepOutcome.reply WsReply.pong
  | WsMsg.track d =>
    match process_hand_tracking now cfg d with
    | Except.ok r => StepOutcome.reply (WsReply.tracking_result r)
    | Except.error _ => StepOutcome.closed
  | WsMsg.image s =>
    match process_hand_tracking now cfg (FrameData.obj (some s)) with
    | Except.ok r => StepOutcome.reply (WsReply.tracking_result r)
    | Except.error _ => StepOutcome.closed
  | WsMsg.other => StepOutcome.silent

-- ===== SESSION MANAGER (spec-modelled) =====

abbrev SessionMap := String → Option TrackingSession

def emptySessions : SessionMap := fun _ => none

/-- Modelled from the spec: the source declares the Session model and the
active_sessions map (render_backend.py lines 64-74) but no code under src
implements the activate operation.  Following the spec words: if the id is
unseen, creates a Session with active=false; sets active=true, and
start_time=now if this is the first activation, otherwise leaves start_time
unchanged; always refreshes robot_config to the given snapshot; returns the
resulting Session. -/
def activate (m : SessionMap) (session_id : String) (cfg : RobotConfig)
    (now : Nat) : SessionMap × TrackingSession :=
  let s :=
    match m session_id with
    | some s => s
    | none =>
      { session_id := session_id, robot_config := cfg
        active := false, start_time := none }
  let s2 :=
    { s with
      active := true
      robot_config := cfg
      start_time := match s.start_time with | none => some now | some t => some t }
  (fun i => if i = session_id then some s2 else m i, s2)

/-- Modelled from the spec: deactivate sets active=false, is a no-op on an
unknown id, and does not clear start_time. -/
def deactivate (m : SessionMap) (session_id : String) : SessionMap :=
  match m session_id with
  | none => m
  | some s => fun i => if i = session_id then some { s with active := false } else m i

inductive SessionOp where
  | act (session_id : String) (cfg : RobotConfig) (now : Nat)
  | deact (session_id : String)

def runOps : SessionMap → List SessionOp → SessionMap
  | m, [] => m
  | m, SessionOp.act i cfg t :: rest => runOps (activate m i cfg t).1 rest
  | m, SessionOp.deact i :: rest => runOps (deactivate m i) rest

/-- An activation for the given id occurs somewhere in the operation list. -/
def activatedIn : List SessionOp → String → Prop
  | [], _ => False
  | SessionOp.act j _ _ :: rest, i => i = j ∨ activatedIn rest i
  | SessionOp.deact _ :: rest, i => activatedIn rest i

-- ===== SPEC-SIDE VALIDATION (for comparison with the source) =====

/-- Modelled from the spec, for comparison with the source operation: one
axis of workspace_bounds is valid when it is present and maps to a
2-element list [lo, hi] with lo <= hi. -/
def validAxisBounds (wb : List (String × List Rat)) (axis : String) : Bool :=
  match wb.lookup axis with
  | some [lo, hi] => decide (lo ≤ hi)
  | _ => false

/-- Modelled from the spec, for comparison with the source operation: the
validation the spec says set performs on workspace_bounds: exactly the axes
x, y and z, each a 2-element [min, max] with min <= max.  The source
operation set_robot_config performs no such check. -/
def validWorkspaceBounds (wb : List (String × List Rat)) : Bool :=
  validAxisBounds wb "x" && validAxisBounds wb "y" && validAxisBounds wb "z" &&
  wb.all (fun p => p.1 == "x" || p.1 == "y" || p.1 == "z") &&
  decide ((wb.map Prod.fst).Nodup)

-- ===== CONCRETE VALUES USED BY WITNESSES AND COUNTEREXAMPLES =====

def cfgDefault : RobotConfig := {}

def cfgKoch : RobotConfig := { robot_type := "KOCH" }

/-- A configuration whose x axis has min > max: invalid per the spec. -/
def cfgBad : RobotConfig :=
  { workspace_bounds := [("x", [1, 0]), ("y", [0, 1]), ("z", [0, 1])] }

/-- A server state with the default configuration and no registered
connection. -/
def stEmpty : ServerState :=
  { current_robot_config := cfgDefault, websocket_connections := [] }

/-- The result the detected branch of process_hand_tracking produces at
timestamp 0 under the default configuration. -/
def sampleDetected : TrackingResult := detectedResult 0 cfgDefault

/-- sampleDetected written out field by field, for reference. -/
theorem sampleDetected_fields : sampleDetected =
  { success := true
    timestamp := 0
    hand_detected := true
    fingertips :=
      { thumb := some { x := 0.45, y := 0.35, z := 0.2 }
        index_pip := some { x := 0.52, y := 0.28, z := 0.15 }
        index_tip := some { x := 0.58, y := 0.22, z := 0.1 } }
    robot_control :=
      { joint_angles := [45.2, -30.5, 60.1, 15.0, -45.0, 90.0]
        end_effector_pose :=
          { position := { x := 0.25, y := 0.15, z := 0.30 }
            orientation := { roll := 0, pitch := 45, yaw := -30 } }
        gripper_state := "open"
        in_workspace := true
        confidence := 0.94 }
    robot_type := "SO-101"
    processing_time_ms := 16.7 } := rfl

-- ===== HELPER LEMMAS =====

theorem broadcastLoop_eq_filter (ok : Conn → Bool) (l : List Conn) :
    broadcastLoop ok l = (l.filter ok, l.filter ok) := by
  induction l with
  | nil => rfl
  | cons c rest ih =>
    unfold broadcastLoop
    rw [ih]
    cases h : ok c <;> simp [List.filter_cons, h]

theorem broadcast_connections (ok : Conn → Bool) (st : ServerState) :
    (broadcast_config_update ok st).1.websocket_connections
      = st.websocket_connections.filter ok ∧
    (broadcast_config_update ok st).2 = st.websocket_connections.filter ok ∧
    (broadcast_config_update ok st).1.current_robot_config
      = st.current_robot_config := by
  unfold broadcast_config_update
  cases hl : st.websocket_connections with
  | nil => simp [hl]
  | cons c rest => simp [hl, broadcastLoop_eq_filter]

-- ===== CLAIM C10 =====

/-- C10: after every broadcast_config_update call the registry membership is
exactly the subsequence of the pre-call membership whose delivery succeeded,
in the original relative order (it equals the filter of the old list by the
delivery predicate, hence is a sublist of it), and so no connection outside
the pre-call membership is ever added. -/
theorem c10_registry_after_broadcast (ok : Conn → Bool) (st : ServerState) :
    (broadcast_config_update ok st).1.websocket_connections
      = st.websocket_connections.filter ok ∧
    ((broadcast_config_update ok st).1.websocket_connections).Sublist
      st.websocket_connections := by
  obtain ⟨h1, -, -⟩ := broadcast_connections ok st
  exact ⟨h1, h1 ▸ List.filter_sublist _⟩

-- ===== CLAIM C2 =====

/-- C2: with N registered connections of which exactly one connection k
fails delivery, broadcast_config_update still delivers the message to every
other connection, k is no longer in the registry afterwards, and every
healthy connection remains registered. -/
theorem c2_broadcast_isolation (ok : Conn → Bool) (st : ServerState) (k : Conn)
    (hk : k ∈ st.websocket_connections) (hfail : ok k = false)
    (hok : ∀ c ∈ st.websocket_connections, c ≠ k → ok c = true) :
    (∀ c ∈ st.websocket_connections, c ≠ k →
      c ∈ (broadcast_config_update ok st).2) ∧
    k ∉ (broadcast_config_update ok st).1.websocket_connections ∧
    (∀ c ∈ st.websocket_connections, c ≠ k →
      c ∈ (broadcast_config_update ok st).1.websocket_connections) := by
  obtain ⟨h1, h2, -⟩ := broadcast_connections ok st
  rw [h1, h2]
  refine ⟨?_, ?_, ?_⟩
  · intro c hc hck
    exact List.mem_filter.mpr ⟨hc, hok c hc hck⟩
  · intro hmem
    have := (List.mem_filter.mp hmem).2
    rw [hfail] at this
    exact Bool.false_ne_true this
  · intro c hc hck
    exact List.mem_filter.mpr ⟨hc, hok c hc hck⟩

/-- C2 witness: three registered connections 0, 1, 2 with connection 1
failing delivery. -/
theorem c2_broadcast_isolation_witness :
    (∀ c ∈ ({ current_robot_config := cfgDefault,
              websocket_connections := [0, 1, 2] } : ServerState).websocket_connections,
      c ≠ 1 →
      c ∈ (broadcast_config_update (fun c => c != 1)
            { current_robot_config := cfgDefault,
              websocket_connections := [0, 1, 2] }).2) ∧
    (1 : Conn) ∉ (broadcast_config_update (fun c => c != 1)
            { current_robot_config := cfgDefault,
              websocket_connections := [0, 1, 2] }).1.websocket_connections ∧
    (∀ c ∈ ({ current_robot_config := cfgDefault,
              websocket_connections := [0, 1, 2] } : ServerState).websocket_connections,
      c ≠ 1 →
      c ∈ (broadcast_config_update (fun c => c != 1)
            { current_robot_config := cfgDefault,
              websocket_connections := [0, 1, 2] }).1.websocket_connections) :=
  c2_broadcast_isolation (fun c => c != 1)
    { current_robot_config := cfgDefault, websocket_connections := [0, 1, 2] }
    1 (by decide) (by decide) (by decide)

-- ===== CLAIM C1 =====

/-- C1 counterexample: cfgBad maps axis x to [1, 0] with min > max, which the
spec validation rejects, yet set_robot_config reports success, replaces the
stored configuration (previously cfgKoch) with cfgBad, and delivers the
broadcast to the one registered connection — no validation error, no
retention of the prior value, and a broadcast is triggered. -/
theorem c1_set_validation_counterexample :
    validWorkspaceBounds cfgBad.workspace_bounds = false ∧
    (set_robot_config (fun _ => true)
        { current_robot_config := cfgKoch, websocket_connections := [0] }
        cfgBad).2.2.success = true ∧
    (set_robot_config (fun _ => true)
        { current_robot_config := cfgKoch, websocket_connections := [0] }
        cfgBad).1.current_robot_config = cfgBad ∧
    cfgBad ≠ cfgKoch ∧
    (set_robot_config (fun _ => true)
        { current_robot_config := cfgKoch, websocket_connections := [0] }
        cfgBad).2.1 = [0] :=
  ⟨by decide, rfl, rfl, by decide, rfl⟩

/-- C1 (amended): set_robot_config performs no workspace_bounds validation.
For every input configuration, valid or not, it reports success, replaces
the stored value with the input, returns the input, and triggers the
broadcast (whose message reaches every connection with a successful send). -/
theorem c1_set_no_validation (ok : Conn → Bool) (st : ServerState)
    (config : RobotConfig) :
    (set_robot_config ok st config).2.2.success = true ∧
    (set_robot_config ok st config).1.current_robot_config = config ∧
    (set_robot_config ok st config).2.2.robot_config = config ∧
    (set_robot_config ok st config).2.1 = st.websocket_connections.filter ok := by
  obtain ⟨h1, h2, h3⟩ :=
    broadcast_connections ok { st with current_robot_config := config }
  exact ⟨rfl, h3, rfl, h2⟩

-- ===== CLAIM C3 =====

/-- C3 counterexample: a track message whose data field is not a dict makes
process_hand_tracking raise, and the websocket receive loop then terminates:
the outcome is closed (the handle is unregistered by the finally block), not
a reply carrying the no-hand-detected result with the connection open.  So a
processing error on one frame does transition the connection to CLOSED. -/
theorem c3_frame_error_counterexample :
    websocketStep 0 cfgDefault (WsMsg.track FrameData.nonDict)
      = StepOutcome.closed ∧
    StepOutcome.closed ≠ StepOutcome.reply
      (WsReply.tracking_result sampleDetected) :=
  ⟨rfl, by decide⟩

/-- C3 (amended): when processing a frame raises an error, the websocket
handler closes the connection — the receive loop exits and the handle is
unregistered — and no reply at all is sent for that frame. -/
theorem c3_frame_error_closes (now : Nat) (cfg : RobotConfig) (d : FrameData)
    (e : String) (h : process_hand_tracking now cfg d = Except.error e) :
    websocketStep now cfg (WsMsg.track d) = StepOutcome.closed := by
  have hstep : websocketStep now cfg (WsMsg.track d)
      = (match process_hand_tracking now cfg d with
         | Except.ok r => StepOutcome.reply (WsReply.tracking_result r)
         | Except.error _ => StepOutcome.closed) := rfl
  rw [hstep, h]

/-- C3 witness: a concrete erroring frame under the KOCH configuration. -/
theorem c3_frame_error_closes_witness :
    websocketStep 1 cfgKoch (WsMsg.track FrameData.nonDict)
      = StepOutcome.closed :=
  c3_frame_error_closes 1 cfgKoch FrameData.nonDict "Tracking error" rfl

-- ===== CLAIM C4 =====

/-- C4 counterexample: with the configured robot KOCH, for which the catalog
lists 7 degrees of freedom, a non-empty image still yields hand_detected =
true with a joint angle list of length 6, not 7. -/
theorem c4_joint_length_counterexample :
    catalogDof "KOCH" = some 7 ∧
    Except.map (fun r => (r.hand_detected, r.robot_control.joint_angles.length))
        (process_hand_tracking 0 cfgKoch (FrameData.obj (some "img")))
      = Except.ok (true, 6) ∧
    (6 : Nat) ≠ 7 :=
  ⟨by decide, rfl, by decide⟩

/-- C4 (amended): a non-empty image yields hand_detected = true and a joint
angle list of fixed length 6 regardless of the configured robot type; 6
matches the catalog degree-of-freedom count of SO-101 and SO-100 but not of
KOCH. -/
theorem c4_joint_length_fixed (now : Nat) (cfg : RobotConfig) (img : String)
    (h : img ≠ "") :
    Except.map (fun r => (r.hand_detected, r.robot_control.joint_angles.length))
        (process_hand_tracking now cfg (FrameData.obj (some img)))
      = Except.ok (true, 6) ∧
    catalogDof "SO-101" = some 6 ∧ catalogDof "SO-100" = some 6 := by
  refine ⟨?_, by decide, by decide⟩
  unfold process_hand_tracking
  simp only [Option.getD, ne_eq, h, not_false_iff, if_true, ite_not, if_neg]
  rfl

/-- C4 witness: a concrete non-empty image. -/
theorem c4_joint_length_fixed_witness :
    Except.map (fun r => (r.hand_detected, r.robot_control.joint_angles.length))
        (process_hand_tracking 0 cfgDefault (FrameData.obj (some "x")))
      = Except.ok (true, 6) ∧
    catalogDof "SO-101" = some 6 ∧ catalogDof "SO-100" = some 6 :=
  c4_joint_length_fixed 0 cfgDefault "x" (by decide)

-- ===== CLAIM C5 =====

/-- C5: a frame whose image field is empty or absent yields a result with
hand_detected = false, joint angles all zero, confidence 0.0 and
in_workspace = false. -/
theorem c5_no_detection_default (now : Nat) (cfg : RobotConfig)
    (image : Option String) (h : image = none ∨ image = some "") :
    Except.map
        (fun r => (r.hand_detected, r.robot_control.joint_angles,
                   r.robot_control.confidence, r.robot_control.in_workspace))
        (process_hand_tracking now cfg (FrameData.obj image))
      = Except.ok (false, [0, 0, 0, 0, 0, 0], 0.0, false) := by
  rcases h with h | h <;> subst h <;> rfl

/-- C5 witness: a frame with the image field absent. -/
theorem c5_no_detection_default_witness :
    Except.map
        (fun r => (r.hand_detected, r.robot_control.joint_angles,
                   r.robot_control.confidence, r.robot_control.in_workspace))
        (process_hand_tracking 0 cfgDefault (FrameData.obj none))
      = Except.ok (false, [0, 0, 0, 0, 0, 0], 0.0, false) :=
  c5_no_detection_default 0 cfgDefault none (Or.inl rfl)

-- ===== CLAIM C8 =====

/-- C8 counterexample: the reported confidence is not fixed across inputs: a
non-empty image yields confidence 0.94 while an empty image yields 0.0, and
these differ.  (The processing time is the part that really is fixed.) -/
theorem c8_confidence_counterexample :
    Except.map (fun r => r.robot_control.confidence)
        (process_hand_tracking 0 cfgDefault (FrameData.obj (some "x")))
      = Except.ok 0.94 ∧
    Except.map (fun r => r.robot_control.confidence)
        (process_hand_tracking 0 cfgDefault (FrameData.obj (some "")))
      = Except.ok 0.0 ∧
    (0.94 : Rat) ≠ 0.0 :=
  ⟨rfl, rfl, by norm_num⟩

/-- C8 (amended): processing_time_ms is the fixed value 16.7 for every input
frame, while confidence takes one of exactly two fixed values determined
only by the detection flag: 0.94 when a hand is detected and 0.0 otherwise;
neither depends on the image content beyond its emptiness. -/
theorem c8_fixed_timing_two_valued_confidence (now : Nat) (cfg : RobotConfig)
    (d : FrameData) (r : TrackingResult)
    (h : process_hand_tracking now cfg d = Except.ok r) :
    r.processing_time_ms = 16.7 ∧
    r.robot_control.confidence = (if r.hand_detected then 0.94 else 0.0) := by
  cases d with
  | nonDict => exact Except.noConfusion h
  | obj image =>
    have hb : process_hand_tracking now cfg (FrameData.obj image)
        = (if image.getD "" ≠ "" then Except.ok (detectedResult now cfg)
           else Except.ok (noHandResult now cfg)) := rfl
    rw [hb] at h
    split at h <;> (injection h with h2; subst h2) <;> exact ⟨rfl, rfl⟩

/-- C8 witness: the detected-branch output at a concrete input. -/
theorem c8_fixed_timing_witness :
    sampleDetected.processing_time_ms = 16.7 ∧
    sampleDetected.robot_control.confidence
      = (if sampleDetected.hand_detected then 0.94 else 0.0) :=
  c8_fixed_timing_two_valued_confidence 0 cfgDefault
    (FrameData.obj (some "x")) sampleDetected rfl

-- ===== CLAIM C9 =====

/-- C9: every result produced by process_hand_tracking carries the robot
type of the configuration currently held by the store, whatever the frame
payload contains, and the websocket track path replies with exactly that
result, so the same holds over an open connection. -/
theorem c9_robot_type_from_store (now : Nat) (cfg : RobotConfig)
    (d : FrameData) (r : TrackingResult)
    (h : process_hand_tracking now cfg d = Except.ok r) :
    r.robot_type = cfg.robot_type ∧
    websocketStep now cfg (WsMsg.track d)
      = StepOutcome.reply (WsReply.tracking_result r) := by
  constructor
  · cases d with
    | nonDict => exact Except.noConfusion h
    | obj image =>
      have hb : process_hand_tracking now cfg (FrameData.obj image)
          = (if image.getD "" ≠ "" then Except.ok (detectedResult now cfg)
             else Except.ok (noHandResult now cfg)) := rfl
      rw [hb] at h
      split at h <;> (injection h with h2; subst h2) <;> rfl
  · have hstep : websocketStep now cfg (WsMsg.track d)
        = (match process_hand_tracking now cfg d with
           | Except.ok r => StepOutcome.reply (WsReply.tracking_result r)
           | Except.error _ => StepOutcome.closed) := rfl
    rw [hstep, h]

/-- C9 witness: a concrete frame under the default configuration. -/
theorem c9_robot_type_from_store_witness :
    sampleDetected.robot_type = cfgDefault.robot_type ∧
    websocketStep 0 cfgDefault (WsMsg.track (FrameData.obj (some "x")))
      = StepOutcome.reply (WsReply.tracking_result sampleDetected) :=
  c9_robot_type_from_store 0 cfgDefault (FrameData.obj (some "x"))
    sampleDetected rfl

-- ===== CLAIM C7 =====

/-- C7 counterexample: registering the same handle twice is a plain list
append and leaves a duplicate entry, and a subsequent broadcast in which
delivery to that handle succeeds delivers the message to it twice, not
once. -/
theorem c7_duplicate_registration_counterexample :
    (registerConn (registerConn
        { current_robot_config := cfgKoch, websocket_connections := [] } 0)
        0).websocket_connections = [0, 0] ∧
    ((broadcastLoop (fun _ => true)
        (registerConn (registerConn
          { current_robot_config := cfgKoch, websocket_connections := [] } 0)
          0).websocket_connections).1.count 0) = 2 ∧
    (2 : Nat) ≠ 1 :=
  ⟨rfl, rfl, by decide⟩

/-- C7 (amended): registration appends unconditionally, so a handle
registered twice appears twice in the registry, and a broadcast whose
delivery to that handle succeeds delivers the message to it once per entry:
twice more than it would have received from the original registry. -/
theorem c7_registration_not_idempotent (st : ServerState) (c : Conn)
    (ok : Conn → Bool) (h : ok c = true) :
    (registerConn st c).websocket_connections
      = st.websocket_connections ++ [c] ∧
    (broadcastLoop ok
        (registerConn (registerConn st c) c).websocket_connections).1.count c
      = st.websocket_connections.count c + 2 := by
  refine ⟨rfl, ?_⟩
  rw [broadcastLoop_eq_filter]
  show ((st.websocket_connections ++ [c] ++ [c]).filter ok).count c
      = st.websocket_connections.count c + 2
  rw [List.filter_append, List.filter_append, List.count_append,
    List.count_append]
  simp [List.filter_cons, h, List.count_filter, List.count_cons]

/-- C7 witness: the empty registry and an always-successful delivery. -/
theorem c7_registration_not_idempotent_witness :
    (registerConn stEmpty 0).websocket_connections
      = stEmpty.websocket_connections ++ [0] ∧
    (broadcastLoop (fun _ => true)
        (registerConn (registerConn stEmpty 0) 0).websocket_connections).1.count 0
      = stEmpty.websocket_connections.count 0 + 2 :=
  c7_registration_not_idempotent stEmpty 0 (fun _ => true) rfl

-- ===== CLAIM C6 =====

theorem activate_apply (m : SessionMap) (j : String) (cfg : RobotConfig)
    (t : Nat) (i : String) :
    (activate m j cfg t).1 i = if i = j then some (activate m j cfg t).2 else m i := by
  rfl

theorem activate_start_time_isSome (m : SessionMap) (j : String)
    (cfg : RobotConfig) (t : Nat) :
    (activate m j cfg t).2.start_time ≠ none := by
  unfold activate
  cases hm : m j with
  | none => simp [hm]
  | some s =>
    simp only [hm]
    cases s.start_time <;> simp

theorem deactivate_apply_none (m : SessionMap) (j : String) (i : String) :
    (deactivate m j i = none) ↔ m i = none := by
  unfold deactivate
  cases hm : m j with
  | none => exact Iff.rfl
  | some s =>
    by_cases hij : i = j
    · subst hij
      simp [hm]
    · simp [hij]

theorem deactivate_start_time (m : SessionMap) (j : String) (i : String)
    (s : TrackingSession) (h : deactivate m j i = some s) :
    ∃ s0, m i = some s0 ∧ s0.start_time = s.start_time := by
  unfold deactivate at h
  cases hm : m j with
  | none =>
    rw [hm] at h
    exact ⟨s, h, rfl⟩
  | some s1 =>
    rw [hm] at h
    by_cases hij : i = j
    · subst hij
      simp only [if_pos rfl] at h
      exact ⟨s1, hm, by cases h; rfl⟩
    · simp only [if_neg hij] at h
      exact ⟨s, h, rfl⟩

theorem activate_snd_of_some (m : SessionMap) (j : String) (cfg : RobotConfig)
    (t : Nat) (s : TrackingSession) (h : m j = some s) :
    (activate m j cfg t).2.robot_config = cfg ∧
    (activate m j cfg t).2.start_time
      = (match s.start_time with
         | none => some t
         | some u => some u) := by
  unfold activate
  rw [h]
  exact ⟨rfl, rfl⟩

theorem runOps_none_iff (ops : List SessionOp) (m : SessionMap) (i : String) :
    runOps m ops i = none ↔ (m i = none ∧ ¬ activatedIn ops i) := by
  induction ops generalizing m with
  | nil => simp [runOps, activatedIn]
  | cons op rest ih =>
    cases op with
    | act j cfg t =>
      show runOps (activate m j cfg t).1 rest i = none ↔ _
      rw [ih]
      rw [activate_apply]
      by_cases hij : i = j
      · subst hij
        simp [activatedIn]
      · simp [hij, activatedIn]
    | deact j =>
      show runOps (deactivate m j) rest i = none ↔ _
      rw [ih, deactivate_apply_none]
      simp [activatedIn]

theorem runOps_start_time_isSome (ops : List SessionOp) (m : SessionMap)
    (hm : ∀ i s, m i = some s → s.start_time ≠ none) :
    ∀ i s, runOps m ops i = some s → s.start_time ≠ none := by
  induction ops generalizing m with
  | nil => exact hm
  | cons op rest ih =>
    cases op with
    | act j cfg t =>
      show ∀ i s, runOps (activate m j cfg t).1 rest i = some s → _
      refine ih _ ?_
      intro i s hi
      rw [activate_apply] at hi
      by_cases hij : i = j
      · rw [if_pos hij] at hi
        cases hi
        exact activate_start_time_isSome m j cfg t
      · rw [if_neg hij] at hi
        exact hm i s hi
    | deact j =>
      show ∀ i s, runOps (deactivate m j) rest i = some s → _
      refine ih _ ?_
      intro i s hi
      obtain ⟨s0, hs0, hst⟩ := deactivate_start_time m j i s hi
      rw [← hst]
      exact hm i s0 hs0

/-- C6 (spec-modelled Session Manager): for a session id not yet in the map,
the first activate sets start_time to the time of that call; a second
activate leaves start_time unchanged while refreshing robot_config to the
new snapshot; and over any sequence of activate and deactivate operations
starting from the empty map, a session id maps to nothing iff it was never
activated, while every stored session has a non-None start_time — so
start_time is None exactly for sessions never activated. -/
theorem c6_start_time_stability (m : SessionMap) (session_id : String)
    (cfg1 cfg2 : RobotConfig) (t1 t2 : Nat) (h : m session_id = none) :
    (activate m session_id cfg1 t1).2.start_time = some t1 ∧
    (activate (activate m session_id cfg1 t1).1 session_id cfg2 t2).2.start_time
      = some t1 ∧
    (activate (activate m session_id cfg1 t1).1 session_id cfg2 t2).2.robot_config
      = cfg2 ∧
    (∀ ops i, runOps emptySessions ops i = none ↔ ¬ activatedIn ops i) ∧
    (∀ ops i s, runOps emptySessions ops i = some s → s.start_time ≠ none) := by
  have h1 : (activate m session_id cfg1 t1).2.start_time = some t1 := by
    unfold activate
    simp [h]
  have hmap : (activate m session_id cfg1 t1).1 session_id
      = some (activate m session_id cfg1 t1).2 := by
    rw [activate_apply, if_pos rfl]
  obtain ⟨hrc, hst⟩ := activate_snd_of_some
    (activate m session_id cfg1 t1).1 session_id cfg2 t2
    (activate m session_id cfg1 t1).2 hmap
  refine ⟨h1, ?_, hrc, ?_, ?_⟩
  · rw [hst, h1]
  · intro ops i
    rw [runOps_none_iff]
    simp [emptySessions]
  · intro ops i s
    exact runOps_start_time_isSome ops emptySessions (fun i s hs => by
      simp [emptySessions] at hs) i s

/-- C6 witness: a fresh id activated twice with different configurations. -/
theorem c6_start_time_stability_witness :
    (activate emptySessions "a" cfgDefault 1).2.start_time = some 1 ∧
    (activate (activate emptySessions "a" cfgDefault 1).1 "a" cfgKoch 2).2.start_time
      = some 1 ∧
    (activate (activate emptySessions "a" cfgDefault 1).1 "a" cfgKoch 2).2.robot_config
      = cfgKoch ∧
    (∀ ops i, runOps emptySessions ops i = none ↔ ¬ activatedIn ops i) ∧
    (∀ ops i s, runOps emptySessions ops i = some s → s.start_time ≠ none) :=
  c6_start_time_stability emptySessions "a" cfgDefault cfgKoch 1 2 rfl
